import Mathlib

/-!
Verification development for the feasibility-calculator repository.

The core under study is `compute_outputs` and `sensitivity` from
`src/feasibility.py`, together with `ensure_defaults` and `merge_patch`
from `src/app.py`.  The Python code works over a loosely-typed dictionary
`Dict[str, Any]`; we embed that dictionary shallowly as an association
list of `String × Value` pairs whose lookup semantics mirror a Python
dict, and we embed IEEE-float arithmetic by exact rational arithmetic
(the spec states all arithmetic in real numbers, and decimal literals are
read exactly).
-/

/-- Value space of the parameter dictionary as it occurs in this program:
JSON numbers (the LLM tool schema and the form constrain every numeric
field to a number), strings (the two enum fields and the empty string),
and Python `None`.  Coercing `None` or a non-numeric string with
`float(...)` raises in Python; the strings reaching `float` in this
program are never numeric, so `pyFloat` faithfully fails on every
non-number value. -/
inductive Value where
  | num (q : ℚ)
  | str (s : String)
  | null
deriving Repr, DecidableEq

/-- A Python `Dict[str, Any]` restricted to this program's value space,
modelled as an association list where the most recent binding of a key
wins (mirroring dict assignment). -/
def Inputs : Type := List (String × Value)

/-- Dictionary lookup: `inputs.get(k)` / `k in inputs`. -/
def dictGet : Inputs → String → Option Value
  | [], _ => none
  | (k, v) :: rest, key => if key = k then some v else dictGet rest key

/-- Dictionary assignment `m[k] = v` (on a fresh copy, as the source
always copies with `dict(...)` before assigning). -/
def setItem (m : Inputs) (k : String) (v : Value) : Inputs :=
  (k, v) :: m

/-- Python `k in m`. -/
def containsKey (m : Inputs) (k : String) : Bool :=
  (dictGet m k).isSome

/-- Python `m.setdefault(k, v)`. -/
def setdefault (m : Inputs) (k : String) (v : Value) : Inputs :=
  if containsKey m k then m else setItem m k v

/-- Errors a `compute_outputs` call can raise:
`missingField k` is the `ValueError(f"Eksik alan: {k}")` of the required
check; `keyError v` is the `KeyError` of a failed `DEFAULTS[...][v]` or
`inputs[k]` subscript; `convError` is the `TypeError`/`ValueError` of a
failed `float(...)` coercion (it names nothing). -/
inductive PyError where
  | missingField (k : String)
  | keyError (v : Value)
  | convError
deriving Repr, DecidableEq

/-- Python `float(x)` on this program's value space: numbers coerce to
themselves, `None` and the (non-numeric) strings of this program raise. -/
def pyFloat : Value → Except PyError ℚ
  | .num q => .ok q
  | _ => .error .convError

/-- Constant `DEFAULTS["satilabilir_katsayi"]` from `src/feasibility.py`. -/
def satilabilir_katsayi_default : ℚ := 1.25

/-- Constant `DEFAULTS["ortalama_konut_m2"]` from `src/feasibility.py`. -/
def ortalama_konut_default : ℚ := 120

/-- Table `DEFAULTS["otopark_katsayi"]`, a dict keyed by the parking-type enum
strings; `none` for any other value (a subscript with such a value raises
`KeyError`). -/
def otopark_katsayi_table : Value → Option ℚ
  | .str "ACIK" => some 1.20
  | .str "KAPALI" => some 1.60
  | _ => none

/-- Table `DEFAULTS["insaat_maliyet_usd_m2"]`, keyed by the housing-class enum
strings. -/
def insaat_maliyet_table : Value → Option ℚ
  | .str "ALT" => some 700
  | .str "ORTA" => some 900
  | .str "YUKSEK" => some 1100
  | _ => none

/-- Subscripting one of the `DEFAULTS` sub-dicts: `KeyError` carrying the
offending key value when it is not in the table. -/
def dictDefault (table : Value → Option ℚ) (v : Value) : Except PyError ℚ :=
  match table v with
  | some d => .ok d
  | none => .error (.keyError v)

/-- List `required` of `compute_outputs` (`src/feasibility.py`,
lines 26-32). -/
def requiredFields : List String :=
  ["arsa_alani_m2", "emsal", "otopark_tipi", "konut_sinifi", "arsa_toplam_degeri_usd"]

/-- Python `k not in inputs or inputs[k] in [None, ""]`. -/
def missingOrEmpty (inputs : Inputs) (k : String) : Bool :=
  match dictGet inputs k with
  | none => true
  | some .null => true
  | some (.str "") => true
  | some _ => false

/-- First required field that is absent or bound to `None`/`""`, in the
order of the source's `required` list. -/
def firstMissing (inputs : Inputs) : Option String :=
  requiredFields.find? (fun k => missingOrEmpty inputs k)

/-- The required-field loop of `compute_outputs` (lines 33-35): raises
`ValueError(f"Eksik alan: {k}")` at the first missing field. -/
def checkRequired (inputs : Inputs) : Except PyError Unit :=
  match firstMissing inputs with
  | some k => .error (.missingField k)
  | none => .ok ()

/-- Python `inputs[k]`: `KeyError` on an absent key. -/
def getItem (inputs : Inputs) (k : String) : Except PyError Value :=
  match dictGet inputs k with
  | some v => .ok v
  | none => .error (.keyError (.str k))

/-- Python `float(inputs[k])`. -/
def getItemNum (inputs : Inputs) (k : String) : Except PyError ℚ := do
  let v ← getItem inputs k
  pyFloat v

/-- Python `float(inputs.get(k, d))` for a numeric default `d`. -/
def getOptNum (inputs : Inputs) (k : String) (d : ℚ) : Except PyError ℚ :=
  pyFloat ((dictGet inputs k).getD (.num d))

/-- Lines 52-53: `satis_fiyat_raw = inputs.get("satis_birim_fiyat_usd_m2",
None)` followed by `float(...) if ... not in [None, ""] else None`. -/
def getSatis (inputs : Inputs) : Except PyError (Option ℚ) :=
  match dictGet inputs "satis_birim_fiyat_usd_m2" with
  | none => .ok none
  | some .null => .ok none
  | some (.str "") => .ok none
  | some v => do
      let q ← pyFloat v
      pure (some q)

/-- The converted input values of `compute_outputs` (lines 37-53). The
`satis_fiyat` field is `none` in cost-only mode. -/
structure Resolved where
  arsa : ℚ
  emsal : ℚ
  satilabilir_katsayi : ℚ
  otopark_katsayi : ℚ
  insaat_maliyet_birim : ℚ
  arsa_degeri : ℚ
  ort_konut : ℚ
  satis_fiyat : Option ℚ
deriving Repr, DecidableEq

/-- The input section of `compute_outputs` without the sale price: the
required-field check (lines 33-35) followed by the conversions of lines
38-50 in source order.  Python evaluates the default argument of
`inputs.get(k, DEFAULTS[...][tip])` eagerly, so the `DEFAULTS` subscript
(and its possible `KeyError`) happens before the key `k` is even
consulted; the embedding preserves that order. -/
def resolveCost (inputs : Inputs) : Except PyError Resolved := do
  checkRequired inputs
  let arsa ← getItemNum inputs "arsa_alani_m2"
  let emsal ← getItemNum inputs "emsal"
  let satilabilir_katsayi ← getOptNum inputs "satilabilir_katsayi" satilabilir_katsayi_default
  let otopark_tipi ← getItem inputs "otopark_tipi"
  let otopark_default ← dictDefault otopark_katsayi_table otopark_tipi
  let otopark_katsayi ← getOptNum inputs "otopark_katsayi" otopark_default
  let konut_sinifi ← getItem inputs "konut_sinifi"
  let maliyet_default ← dictDefault insaat_maliyet_table konut_sinifi
  let insaat_maliyet_birim ← getOptNum inputs "insaat_maliyet_usd_m2" maliyet_default
  let arsa_degeri ← getItemNum inputs "arsa_toplam_degeri_usd"
  let ort_konut ← getOptNum inputs "ortalama_konut_m2" ortalama_konut_default
  pure ⟨arsa, emsal, satilabilir_katsayi, otopark_katsayi, insaat_maliyet_birim,
        arsa_degeri, ort_konut, none⟩

/-- Full input section of `compute_outputs` (lines 33-53): the cost
conversions followed by the optional sale price. -/
def resolveInputs (inputs : Inputs) : Except PyError Resolved := do
  let r ← resolveCost inputs
  let satis ← getSatis inputs
  pure { r with satis_fiyat := satis }

/-- The `outputs` dictionary of `compute_outputs` (lines 89-142), one
field per key; `Option ℚ` fields are the keys that can hold `None`. -/
structure Outputs where
  emsal_insaat_alani_m2 : ℚ
  satilabilir_alan_m2 : ℚ
  toplam_insaat_alani_m2 : ℚ
  insaat_maliyeti_usd : ℚ
  arsa_degeri_usd : ℚ
  toplam_proje_maliyeti_usd : ℚ
  insaat_maliyeti_try : Option ℚ
  arsa_degeri_try : Option ℚ
  toplam_proje_maliyeti_try : Option ℚ
  yaklasik_konut_adedi : ℤ
  kalan_satilabilir_alan_m2 : ℚ
  breakeven_usd_m2 : ℚ
  target_10_usd_m2 : ℚ
  target_30_usd_m2 : ℚ
  target_50_usd_m2 : ℚ
  breakeven_try_m2 : Option ℚ
  target_10_try_m2 : Option ℚ
  target_30_try_m2 : Option ℚ
  target_50_try_m2 : Option ℚ
  satis_birim_fiyat_usd_m2 : Option ℚ
  satis_birim_fiyat_try_m2 : Option ℚ
  proje_hasilati_usd : Option ℚ
  proje_hasilati_try : Option ℚ
  proje_kari_usd : Option ℚ
  proje_kari_try : Option ℚ
  brut_karlilik_orani : Option ℚ
deriving Repr, DecidableEq

/-- The `to_try` helper (lines 82-87): `None` without a rate, otherwise
`x * rate`. -/
def to_try (rate : Option ℚ) (x : ℚ) : Option ℚ :=
  rate.map (fun r => x * r)

/-- The computation body of `compute_outputs` (lines 55-142): areas,
costs, unit count, break-even and target prices, currency mirrors, and
the revenue-mode update when a positive sale price is present. -/
def coreOutputs (r : Resolved) (rate : Option ℚ) : Outputs :=
  let emsal_insaat := r.arsa * r.emsal
  let satilabilir := emsal_insaat * r.satilabilir_katsayi
  let insaat_alani := satilabilir * r.otopark_katsayi
  let insaat_maliyeti := insaat_alani * r.insaat_maliyet_birim
  let toplam_maliyet := insaat_maliyeti + r.arsa_degeri
  let konut_adedi_raw : ℚ := if r.ort_konut > 0 then satilabilir / r.ort_konut else 0
  let konut_adedi : ℤ := if konut_adedi_raw > 0 then ⌊konut_adedi_raw⌋ else 0
  let kalan_alan : ℚ :=
    if konut_adedi > 0 then satilabilir - (konut_adedi : ℚ) * r.ort_konut else satilabilir
  let breakeven : ℚ := if satilabilir > 0 then toplam_maliyet / satilabilir else 0
  let target_price := fun (margin : ℚ) =>
    if satilabilir > 0 then toplam_maliyet * (1 + margin) / satilabilir else 0
  let base : Outputs :=
    { emsal_insaat_alani_m2 := emsal_insaat
      satilabilir_alan_m2 := satilabilir
      toplam_insaat_alani_m2 := insaat_alani
      insaat_maliyeti_usd := insaat_maliyeti
      arsa_degeri_usd := r.arsa_degeri
      toplam_proje_maliyeti_usd := toplam_maliyet
      insaat_maliyeti_try := to_try rate insaat_maliyeti
      arsa_degeri_try := to_try rate r.arsa_degeri
      toplam_proje_maliyeti_try := to_try rate toplam_maliyet
      yaklasik_konut_adedi := konut_adedi
      kalan_satilabilir_alan_m2 := kalan_alan
      breakeven_usd_m2 := breakeven
      target_10_usd_m2 := target_price 0.10
      target_30_usd_m2 := target_price 0.30
      target_50_usd_m2 := target_price 0.50
      breakeven_try_m2 := to_try rate breakeven
      target_10_try_m2 := to_try rate (target_price 0.10)
      target_30_try_m2 := to_try rate (target_price 0.30)
      target_50_try_m2 := to_try rate (target_price 0.50)
      satis_birim_fiyat_usd_m2 := r.satis_fiyat
      satis_birim_fiyat_try_m2 :=
        match r.satis_fiyat with
        | some s => to_try rate s
        | none => none
      proje_hasilati_usd := none
      proje_hasilati_try := none
      proje_kari_usd := none
      proje_kari_try := none
      brut_karlilik_orani := none }
  match r.satis_fiyat with
  | some satis_fiyat =>
      if satis_fiyat > 0 then
        let hasilat := satilabilir * satis_fiyat
        let kar := hasilat - toplam_maliyet
        let brut_karlilik : ℚ := if toplam_maliyet > 0 then kar / toplam_maliyet else 0
        { base with
          proje_hasilati_usd := some hasilat
          proje_hasilati_try := to_try rate hasilat
          proje_kari_usd := some kar
          proje_kari_try := to_try rate kar
          brut_karlilik_orani := some brut_karlilik }
      else base
  | none => base

/-- Warning strings of `compute_outputs` (lines 144-179). -/
def wEmsalNonpos : String := "⚠️ Emsal 0 veya negatif olamaz."

/-- Warning: land area nonpositive. -/
def wArsaNonpos : String := "⚠️ Arsa alanı 0 veya negatif olamaz."

/-- Warning: sellable-area coefficient nonpositive. -/
def wSatKatNonpos : String := "⚠️ Satılabilir katsayı 0 veya negatif olamaz."

/-- Warning: parking coefficient nonpositive. -/
def wOtoparkNonpos : String := "⚠️ Otopark katsayısı 0 veya negatif olamaz."

/-- Warning: land value negative. -/
def wArsaDegeriNeg : String := "⚠️ Arsa değeri negatif olamaz."

/-- Warning: construction unit cost nonpositive. -/
def wMaliyetNonpos : String := "⚠️ İnşaat maliyeti ($/m²) 0 veya negatif olamaz."

/-- Plausibility hint: far ratio above 5. -/
def wEmsalHigh : String :=
  "ℹ️ Emsal oldukça yüksek görünüyor; birimi/doğruluğu kontrol etmek isteyebilirsin."

/-- Plausibility hint: sellable coefficient outside the usual range. -/
def wSatKatRange : String :=
  "ℹ️ Satılabilir katsayı alışılmadık aralıkta olabilir (örn. 1.10–1.35 sık görülür)."

/-- Plausibility hint: average unit size outside the usual range. -/
def wOrtKonutRange : String := "ℹ️ Ortalama konut m² değeri alışılmadık olabilir."

/-- Informational note: no USD/TRY rate. -/
def wKurMissing : String :=
  "ℹ️ TL karşılıkları için USD/TRY kuru bulunamadı (TL sütunları boş olabilir)."

/-- Profitability flag: negative gross margin. -/
def wLoss : String := "🚩 Proje zararda görünüyor (brüt karlılık negatif)."

/-- Profitability flag: margin below 10 percent. -/
def wLow : String := "⚠️ Brüt karlılık %10’un altında (düşük)."

/-- Profitability note: margin between 10 and 20 percent. -/
def wMid : String := "ℹ️ Brüt karlılık %10–%20 aralığında (orta)."

/-- The warning section of `compute_outputs` (lines 144-179): sequential
conditional appends in source order, the profitability flags reading the
`brut_karlilik_orani` entry of the outputs dict. -/
def coreWarnings (r : Resolved) (rate : Option ℚ) (brut : Option ℚ) : List String :=
  let w : List String := []
  let w := if r.emsal ≤ 0 then w ++ [wEmsalNonpos] else w
  let w := if r.arsa ≤ 0 then w ++ [wArsaNonpos] else w
  let w := if r.satilabilir_katsayi ≤ 0 then w ++ [wSatKatNonpos] else w
  let w := if r.otopark_katsayi ≤ 0 then w ++ [wOtoparkNonpos] else w
  let w := if r.arsa_degeri < 0 then w ++ [wArsaDegeriNeg] else w
  let w := if r.insaat_maliyet_birim ≤ 0 then w ++ [wMaliyetNonpos] else w
  let w := if r.emsal > 5 then w ++ [wEmsalHigh] else w
  let w := if r.satilabilir_katsayi < 1.0 ∨ r.satilabilir_katsayi > 1.6 then w ++ [wSatKatRange] else w
  let w := if r.ort_konut < 60 ∨ r.ort_konut > 250 then w ++ [wOrtKonutRange] else w
  let w := if rate = none then w ++ [wKurMissing] else w
  let w :=
    match brut with
    | none => w
    | some gm =>
        if gm < 0 then w ++ [wLoss]
        else if gm < 0.10 then w ++ [wLow]
        else if gm < 0.20 then w ++ [wMid]
        else w
  w

/-- Function `compute_outputs` from `src/feasibility.py`: required check and
conversions, the output dictionary, and the warnings, returned together;
any raised exception aborts the call with no outputs. -/
def compute_outputs (inputs : Inputs) (usd_try_rate : Option ℚ) :
    Except PyError (Outputs × List String) := do
  let r ← resolveInputs inputs
  let outputs := coreOutputs r usd_try_rate
  let warnings := coreWarnings r usd_try_rate outputs.brut_karlilik_orani
  pure (outputs, warnings)

/-- Line 75 of `src/app.py`: `out.setdefault("satilabilir_katsayi", ...)`. -/
def fillSatKat (out : Inputs) : Inputs :=
  setdefault out "satilabilir_katsayi" (.num satilabilir_katsayi_default)

/-- Line 76 of `src/app.py`: `out.setdefault("ortalama_konut_m2", ...)`. -/
def fillOrtKonut (out : Inputs) : Inputs :=
  setdefault out "ortalama_konut_m2" (.num ortalama_konut_default)

/-- Lines 77-78 of `src/app.py`: set the parking coefficient from the
type-indexed table when the parking type is a known enum value and the
coefficient key is absent (`out.get("otopark_tipi") in ["ACIK","KAPALI"]`
is exactly `otopark_katsayi_table` returning `some`). -/
def fillOtopark (out : Inputs) : Inputs :=
  match dictGet out "otopark_tipi" with
  | some v =>
      match otopark_katsayi_table v with
      | some d =>
          if containsKey out "otopark_katsayi" then out
          else setItem out "otopark_katsayi" (.num d)
      | none => out
  | none => out

/-- Lines 79-80 of `src/app.py`: likewise for the construction unit cost
keyed by the housing class. -/
def fillKonut (out : Inputs) : Inputs :=
  match dictGet out "konut_sinifi" with
  | some v =>
      match insaat_maliyet_table v with
      | some d =>
          if containsKey out "insaat_maliyet_usd_m2" then out
          else setItem out "insaat_maliyet_usd_m2" (.num d)
      | none => out
  | none => out

/-- Function `ensure_defaults` from `src/app.py` (lines 73-81): the four
default-filling statements applied in source order to a copy of the
input. -/
def ensure_defaults (inputs : Inputs) : Inputs :=
  fillKonut (fillOtopark (fillOrtKonut (fillSatKat inputs)))

/-- Function `merge_patch` from `src/app.py` (lines 207-211): overlay the patch
keys onto the current inputs (patch wins) and re-apply the defaults. -/
def merge_patch (inputs patch : Inputs) : Inputs :=
  ensure_defaults (patch.foldl (fun m kv => setItem m kv.1 kv.2) inputs)

/-- One cell of the sensitivity grid (lines 213-219). -/
structure SensCell where
  sales_mult : ℚ
  cost_mult : ℚ
  profit_usd : Option ℚ
  profit_try : Option ℚ
  gross_margin : Option ℚ
deriving Repr, DecidableEq

/-- The return value of `sensitivity` (line 197 / line 222). -/
structure SensResult where
  base : Outputs
  grid : List (List SensCell)
  sales_mults : List ℚ
  cost_mults : List ℚ
deriving Repr, DecidableEq

/-- The sale-price multipliers of `sensitivity` (line 192). -/
def sales_mults : List ℚ := [0.9, 1, 1.1]

/-- The cost multipliers of `sensitivity` (line 193). -/
def cost_mults : List ℚ := [0.9, 1, 1.1]

/-- One inner-loop iteration of `sensitivity` (lines 203-219): copy the
base inputs, scale the sale price by `sm`, scale the construction unit
cost by `cm` (the explicit value when present and non-null, otherwise the
class default looked up fresh), recompute, and record the profit and
margin. -/
def sensCell (base : Inputs) (rate : Option ℚ) (cm sm : ℚ) :
    Except PyError SensCell := do
  let sraw ← getItem base "satis_birim_fiyat_usd_m2"
  let sq ← pyFloat sraw
  let tmp := setItem base "satis_birim_fiyat_usd_m2" (.num (sq * sm))
  let tmp ←
    match dictGet tmp "insaat_maliyet_usd_m2" with
    | some v =>
        if v = .null ∨ v = .str "" then do
          let vk ← getItem tmp "konut_sinifi"
          let kd ← dictDefault insaat_maliyet_table vk
          pure (setItem tmp "insaat_maliyet_usd_m2" (.num (kd * cm)))
        else do
          let mq ← pyFloat v
          pure (setItem tmp "insaat_maliyet_usd_m2" (.num (mq * cm)))
    | none => do
        let vk ← getItem tmp "konut_sinifi"
        let kd ← dictDefault insaat_maliyet_table vk
        pure (setItem tmp "insaat_maliyet_usd_m2" (.num (kd * cm)))
  let res ← compute_outputs tmp rate
  pure { sales_mult := sm
         cost_mult := cm
         profit_usd := res.1.proje_kari_usd
         profit_try := res.1.proje_kari_try
         gross_margin := res.1.brut_karlilik_orani }

/-- Function `sensitivity` from `src/feasibility.py` (lines 184-222): compute the
base case, return an empty grid when the sale price is absent or empty,
otherwise the 3×3 grid with the cost multiplier as outer (row) axis and
the sale multiplier as inner (column) axis. -/
def sensitivity (inputs : Inputs) (usd_try_rate : Option ℚ) :
    Except PyError SensResult := do
  let base := inputs
  let res ← compute_outputs base usd_try_rate
  if missingOrEmpty base "satis_birim_fiyat_usd_m2" then
    pure { base := res.1, grid := [], sales_mults := sales_mults, cost_mults := cost_mults }
  else do
    let grid ← cost_mults.mapM (fun cm => sales_mults.mapM (fun sm => sensCell base usd_try_rate cm sm))
    pure { base := res.1, grid := grid, sales_mults := sales_mults, cost_mults := cost_mults }

example : (1.25 : ℚ) = 5 / 4 := by norm_num

/-- The concrete scenario of the spec's section 8: the five mandatory
fields of the worked example; every optional field is left to its
default. -/
def exInputs : Inputs :=
  [("arsa_alani_m2", .num 5000), ("emsal", .num 1.8), ("otopark_tipi", .str "KAPALI"),
   ("konut_sinifi", .str "ORTA"), ("arsa_toplam_degeri_usd", .num 2000000)]

section DictLemmas

@[simp] lemma dictGet_setItem_self (m : Inputs) (k : String) (v : Value) :
    dictGet (setItem m k v) k = some v := by
  simp [dictGet, setItem]

lemma dictGet_setItem_ne (m : Inputs) (v : Value) {k k0 : String} (h : k ≠ k0) :
    dictGet (setItem m k0 v) k = dictGet m k := by
  simp [dictGet, setItem, h]

@[simp] lemma ok_bind {α β : Type} (a : α) (f : α → Except PyError β) :
    (Except.ok a >>= f) = f a := rfl

@[simp] lemma error_bind {α β : Type} (e : PyError) (f : α → Except PyError β) :
    ((Except.error e : Except PyError α) >>= f) = .error e := rfl

lemma except_bind_ok {α β : Type} {x : Except PyError α} {f : α → Except PyError β} {b : β}
    (h : x >>= f = .ok b) : ∃ a, x = .ok a ∧ f a = .ok b := by
  cases x with
  | ok a => exact ⟨a, rfl, h⟩
  | error e => simp at h

end DictLemmas

section FrameLemmas

/-- The dictionary keys the cost part of `compute_outputs` reads. -/
def costKeys : List String :=
  ["arsa_alani_m2", "emsal", "satilabilir_katsayi", "otopark_tipi", "otopark_katsayi",
   "konut_sinifi", "insaat_maliyet_usd_m2", "arsa_toplam_degeri_usd", "ortalama_konut_m2"]

lemma missingOrEmpty_congr {a b : Inputs} {k : String} (h : dictGet a k = dictGet b k) :
    missingOrEmpty a k = missingOrEmpty b k := by
  simp [missingOrEmpty, h]

lemma checkRequired_congr {a b : Inputs}
    (h : ∀ k ∈ requiredFields, dictGet a k = dictGet b k) :
    checkRequired a = checkRequired b := by
  have h1 := missingOrEmpty_congr (h "arsa_alani_m2" (by decide))
  have h2 := missingOrEmpty_congr (h "emsal" (by decide))
  have h3 := missingOrEmpty_congr (h "otopark_tipi" (by decide))
  have h4 := missingOrEmpty_congr (h "konut_sinifi" (by decide))
  have h5 := missingOrEmpty_congr (h "arsa_toplam_degeri_usd" (by decide))
  simp only [checkRequired, firstMissing, requiredFields, List.find?, h1, h2, h3, h4, h5]

lemma resolveCost_congr {a b : Inputs} (h : ∀ k ∈ costKeys, dictGet a k = dictGet b k) :
    resolveCost a = resolveCost b := by
  have hreq : ∀ k ∈ requiredFields, dictGet a k = dictGet b k := by
    intro k hk
    apply h
    revert hk
    simp only [requiredFields, costKeys, List.mem_cons, List.not_mem_nil]
    tauto
  have h1 := h "arsa_alani_m2" (by decide)
  have h2 := h "emsal" (by decide)
  have h3 := h "satilabilir_katsayi" (by decide)
  have h4 := h "otopark_tipi" (by decide)
  have h5 := h "otopark_katsayi" (by decide)
  have h6 := h "konut_sinifi" (by decide)
  have h7 := h "insaat_maliyet_usd_m2" (by decide)
  have h8 := h "arsa_toplam_degeri_usd" (by decide)
  have h9 := h "ortalama_konut_m2" (by decide)
  simp only [resolveCost, getItemNum, getItem, getOptNum,
    checkRequired_congr hreq, h1, h2, h3, h4, h5, h6, h7, h8, h9]

/-- Overwriting the sale price leaves the cost resolution unchanged. -/
lemma resolveCost_setItem_satis (p : Inputs) (v : Value) :
    resolveCost (setItem p "satis_birim_fiyat_usd_m2" v) = resolveCost p := by
  apply resolveCost_congr
  intro k hk
  apply dictGet_setItem_ne
  revert hk
  simp only [costKeys, List.mem_cons, List.not_mem_nil]
  rintro (rfl | rfl | rfl | rfl | rfl | rfl | rfl | rfl | rfl | h) <;> simp_all

/-- Setting the sale price to a number resolves to the same cost record
with that sale price. -/
lemma resolveInputs_setItem_satis {p : Inputs} {r : Resolved} (q : ℚ)
    (h : resolveInputs p = .ok r) :
    resolveInputs (setItem p "satis_birim_fiyat_usd_m2" (.num q)) =
      .ok { r with satis_fiyat := some q } := by
  unfold resolveInputs at h ⊢
  obtain ⟨r0, hr0, hrest⟩ := except_bind_ok h
  obtain ⟨s, hs, hpure⟩ := except_bind_ok hrest
  simp only [pure, Except.pure, Except.ok.injEq] at hpure
  rw [resolveCost_setItem_satis, hr0]
  simp [getSatis, pyFloat, ← hpure]

end FrameLemmas

section InversionLemmas

lemma getItemNum_setItem_ne (m : Inputs) (v : Value) {k k0 : String} (h : k ≠ k0) :
    getItemNum (setItem m k0 v) k = getItemNum m k := by
  simp [getItemNum, getItem, dictGet_setItem_ne m v h]

lemma getItem_setItem_ne (m : Inputs) (v : Value) {k k0 : String} (h : k ≠ k0) :
    getItem (setItem m k0 v) k = getItem m k := by
  simp [getItem, dictGet_setItem_ne m v h]

lemma getOptNum_setItem_ne (m : Inputs) (v : Value) (d : ℚ) {k k0 : String} (h : k ≠ k0) :
    getOptNum (setItem m k0 v) k d = getOptNum m k d := by
  simp [getOptNum, dictGet_setItem_ne m v h]

@[simp] lemma getOptNum_setItem_self (m : Inputs) (k : String) (c d : ℚ) :
    getOptNum (setItem m k (.num c)) k d = .ok c := by
  simp [getOptNum, pyFloat]

/-- Full inversion of a successful cost resolution into its reading
steps. -/
lemma resolveCost_ok_elim {p : Inputs} {r : Resolved} (h : resolveCost p = .ok r) :
    checkRequired p = .ok () ∧
    getItemNum p "arsa_alani_m2" = .ok r.arsa ∧
    getItemNum p "emsal" = .ok r.emsal ∧
    getOptNum p "satilabilir_katsayi" satilabilir_katsayi_default = .ok r.satilabilir_katsayi ∧
    (∃ vt d, getItem p "otopark_tipi" = .ok vt ∧
      dictDefault otopark_katsayi_table vt = .ok d ∧
      getOptNum p "otopark_katsayi" d = .ok r.otopark_katsayi) ∧
    (∃ vk kd, getItem p "konut_sinifi" = .ok vk ∧
      dictDefault insaat_maliyet_table vk = .ok kd ∧
      getOptNum p "insaat_maliyet_usd_m2" kd = .ok r.insaat_maliyet_birim) ∧
    getItemNum p "arsa_toplam_degeri_usd" = .ok r.arsa_degeri ∧
    getOptNum p "ortalama_konut_m2" ortalama_konut_default = .ok r.ort_konut ∧
    r.satis_fiyat = none := by
  unfold resolveCost at h
  obtain ⟨u, hu, h⟩ := except_bind_ok h
  obtain ⟨a1, h1, h⟩ := except_bind_ok h
  obtain ⟨a2, h2, h⟩ := except_bind_ok h
  obtain ⟨a3, h3, h⟩ := except_bind_ok h
  obtain ⟨vt, hvt, h⟩ := except_bind_ok h
  obtain ⟨d, hd, h⟩ := except_bind_ok h
  obtain ⟨a4, h4, h⟩ := except_bind_ok h
  obtain ⟨vk, hvk, h⟩ := except_bind_ok h
  obtain ⟨kd, hkd, h⟩ := except_bind_ok h
  obtain ⟨a5, h5, h⟩ := except_bind_ok h
  obtain ⟨a6, h6, h⟩ := except_bind_ok h
  obtain ⟨a7, h7, h⟩ := except_bind_ok h
  simp only [pure, Except.pure, Except.ok.injEq] at h
  cases u
  subst h
  exact ⟨hu, h1, h2, h3, ⟨vt, d, hvt, hd, h4⟩, ⟨vk, kd, hvk, hkd, h5⟩, h6, h7, rfl⟩

/-- Overwriting the construction unit cost with a number shifts only that
component of a successful cost resolution. -/
lemma resolveCost_setItem_maliyet {p : Inputs} {r : Resolved} (c : ℚ)
    (h : resolveCost p = .ok r) :
    resolveCost (setItem p "insaat_maliyet_usd_m2" (.num c)) =
      .ok { r with insaat_maliyet_birim := c } := by
  obtain ⟨hu, h1, h2, h3, ⟨vt, d, hvt, hd, h4⟩, ⟨vk, kd, hvk, hkd, h5⟩, h6, h7, hsat⟩ :=
    resolveCost_ok_elim h
  have hreq : checkRequired (setItem p "insaat_maliyet_usd_m2" (.num c)) = checkRequired p := by
    apply checkRequired_congr
    intro k hk
    apply dictGet_setItem_ne
    revert hk
    simp only [requiredFields, List.mem_cons, List.not_mem_nil]
    rintro (rfl | rfl | rfl | rfl | rfl | hfalse) <;> simp_all
  unfold resolveCost
  rw [hreq, hu,
    getItemNum_setItem_ne p _ (by decide), h1,
    getItemNum_setItem_ne p _ (by decide), h2,
    getOptNum_setItem_ne p _ _ (by decide), h3,
    getItem_setItem_ne p _ (by decide), hvt]
  simp only [ok_bind]
  rw [hd]
  simp only [ok_bind]
  rw [getOptNum_setItem_ne p _ _ (by decide), h4,
    getItem_setItem_ne p _ (by decide), hvk]
  simp only [ok_bind]
  rw [hkd]
  simp only [ok_bind]
  rw [getOptNum_setItem_self]
  simp only [ok_bind]
  rw [getItemNum_setItem_ne p _ (by decide), h6,
    getOptNum_setItem_ne p _ _ (by decide), h7]
  simp only [ok_bind]
  simp [pure, Except.pure, ← hsat]

end InversionLemmas

section NoMissingField

/-- An `Except` computation that never fails with the missing-field
error. -/
def NoMF {α : Type} (x : Except PyError α) : Prop :=
  ∀ k, x ≠ .error (.missingField k)

lemma NoMF.bind {α β : Type} {x : Except PyError α} {f : α → Except PyError β}
    (hx : NoMF x) (hf : ∀ a, NoMF (f a)) : NoMF (x >>= f) := by
  cases x with
  | ok a => simpa using hf a
  | error e =>
      intro k
      simpa using hx k

lemma pure_noMF {α : Type} (a : α) : NoMF (pure a : Except PyError α) := by
  intro k
  simp [pure, Except.pure]

lemma pyFloat_noMF (v : Value) : NoMF (pyFloat v) := by
  intro k
  cases v <;> simp [pyFloat]

lemma getItem_noMF (m : Inputs) (key : String) : NoMF (getItem m key) := by
  intro k
  unfold getItem
  cases dictGet m key <;> simp

lemma getItemNum_noMF (m : Inputs) (key : String) : NoMF (getItemNum m key) := by
  unfold getItemNum
  exact NoMF.bind (getItem_noMF m key) (fun v => pyFloat_noMF v)

lemma getOptNum_noMF (m : Inputs) (key : String) (d : ℚ) : NoMF (getOptNum m key d) := by
  unfold getOptNum
  exact pyFloat_noMF _

lemma dictDefault_noMF (table : Value → Option ℚ) (v : Value) : NoMF (dictDefault table v) := by
  intro k
  unfold dictDefault
  cases table v <;> simp

lemma getSatis_noMF (m : Inputs) : NoMF (getSatis m) := by
  intro k
  unfold getSatis
  cases h : dictGet m "satis_birim_fiyat_usd_m2" with
  | none => simp
  | some v =>
      cases v with
      | num q => simp [pyFloat, pure, Except.pure]
      | null => simp
      | str s =>
          by_cases hs : s = ""
          · subst hs
            simp
          · simp [hs, pyFloat, pure, Except.pure]

/-- Once the required check passes, no later step of `compute_outputs`
raises the missing-field error. -/
lemma resolveInputs_noMF {p : Inputs} (h : firstMissing p = none) :
    NoMF (resolveInputs p) := by
  unfold resolveInputs resolveCost
  rw [show checkRequired p = .ok () by simp [checkRequired, h]]
  simp only [ok_bind]
  refine NoMF.bind ?_ (fun r => NoMF.bind (getSatis_noMF p) (fun s => pure_noMF _))
  refine NoMF.bind (getItemNum_noMF _ _) fun a1 => ?_
  refine NoMF.bind (getItemNum_noMF _ _) fun a2 => ?_
  refine NoMF.bind (getOptNum_noMF _ _ _) fun a3 => ?_
  refine NoMF.bind (getItem_noMF _ _) fun vt => ?_
  refine NoMF.bind (dictDefault_noMF _ _) fun d => ?_
  refine NoMF.bind (getOptNum_noMF _ _ _) fun a4 => ?_
  refine NoMF.bind (getItem_noMF _ _) fun vk => ?_
  refine NoMF.bind (dictDefault_noMF _ _) fun kd => ?_
  refine NoMF.bind (getOptNum_noMF _ _ _) fun a5 => ?_
  refine NoMF.bind (getItemNum_noMF _ _) fun a6 => ?_
  refine NoMF.bind (getOptNum_noMF _ _ _) fun a7 => ?_
  exact pure_noMF _

end NoMissingField

section ComputeInversion

lemma compute_outputs_of_resolve {p : Inputs} {rate : Option ℚ} {r : Resolved}
    (h : resolveInputs p = .ok r) :
    compute_outputs p rate =
      .ok (coreOutputs r rate,
        coreWarnings r rate (coreOutputs r rate).brut_karlilik_orani) := by
  unfold compute_outputs
  rw [h]
  rfl

lemma compute_outputs_ok_elim {p : Inputs} {rate : Option ℚ} {out : Outputs} {w : List String}
    (h : compute_outputs p rate = .ok (out, w)) :
    ∃ r, resolveInputs p = .ok r ∧ out = coreOutputs r rate ∧
      w = coreWarnings r rate (coreOutputs r rate).brut_karlilik_orani := by
  unfold compute_outputs at h
  obtain ⟨r, hr, h⟩ := except_bind_ok h
  simp only [pure, Except.pure, Except.ok.injEq, Prod.mk.injEq] at h
  exact ⟨r, hr, h.1.symm, h.2.symm⟩

lemma compute_outputs_error_iff {p : Inputs} {rate : Option ℚ} {e : PyError} :
    compute_outputs p rate = .error e ↔ resolveInputs p = .error e := by
  unfold compute_outputs
  cases h : resolveInputs p <;> simp [pure, Except.pure]

lemma compute_outputs_of_firstMissing {p : Inputs} {rate : Option ℚ} {k : String}
    (h : firstMissing p = some k) :
    compute_outputs p rate = .error (.missingField k) := by
  unfold compute_outputs resolveInputs resolveCost
  rw [show checkRequired p = .error (.missingField k) by simp [checkRequired, h]]
  rfl

end ComputeInversion

section ClaimC1

lemma resolveInputs_ok_elim {p : Inputs} {r : Resolved} (h : resolveInputs p = .ok r) :
    ∃ r0 s, resolveCost p = .ok r0 ∧ getSatis p = .ok s ∧ r = { r0 with satis_fiyat := s } := by
  unfold resolveInputs at h
  obtain ⟨r0, hr0, h⟩ := except_bind_ok h
  obtain ⟨s, hs, h⟩ := except_bind_ok h
  simp only [pure, Except.pure, Except.ok.injEq] at h
  exact ⟨r0, s, hr0, hs, h.symm⟩

lemma getSatis_of_absent {p : Inputs} (h : dictGet p "satis_birim_fiyat_usd_m2" = none) :
    getSatis p = .ok none := by
  simp [getSatis, h]

lemma compute_outputs_missingField_inv {p : Inputs} {rate : Option ℚ} {k : String}
    (h : compute_outputs p rate = .error (.missingField k)) :
    firstMissing p = some k := by
  cases hfm : firstMissing p with
  | none =>
      exact absurd (compute_outputs_error_iff.mp h) (resolveInputs_noMF hfm k)
  | some k0 =>
      have h0 : compute_outputs p rate = .error (.missingField k0) :=
        compute_outputs_of_firstMissing hfm
      rw [h] at h0
      simp only [Except.error.injEq, PyError.missingField.injEq] at h0
      rw [h0]

/-- Claim C1: `compute_outputs` raises the field-naming MissingField error
exactly when one of the five mandatory fields `arsa_alani_m2`, `emsal`,
`otopark_tipi`, `konut_sinifi`, `arsa_toplam_degeri_usd` is absent from
the input mapping or bound to null/the empty string; the error names such
a field; `satis_birim_fiyat_usd_m2` is not in the mandatory set, and its
absence instead selects cost-only mode (all revenue fields null). -/
theorem claim_C1 (inputs : Inputs) (rate : Option ℚ) :
    ((∃ k, compute_outputs inputs rate = .error (.missingField k)) ↔
      ∃ k ∈ requiredFields, missingOrEmpty inputs k = true) ∧
    (∀ k, compute_outputs inputs rate = .error (.missingField k) →
      k ∈ requiredFields ∧ missingOrEmpty inputs k = true) ∧
    "satis_birim_fiyat_usd_m2" ∉ requiredFields ∧
    (∀ out w, dictGet inputs "satis_birim_fiyat_usd_m2" = none →
      compute_outputs inputs rate = .ok (out, w) →
      out.proje_hasilati_usd = none ∧ out.proje_hasilati_try = none ∧
      out.proje_kari_usd = none ∧ out.proje_kari_try = none ∧
      out.brut_karlilik_orani = none) := by
  have hname : ∀ k, compute_outputs inputs rate = .error (.missingField k) →
      k ∈ requiredFields ∧ missingOrEmpty inputs k = true := by
    intro k h
    have hfm := compute_outputs_missingField_inv h
    exact ⟨List.mem_of_find?_eq_some hfm, List.find?_some hfm⟩
  refine ⟨⟨?_, ?_⟩, hname, by decide, ?_⟩
  · rintro ⟨k, h⟩
    obtain ⟨hmem, hmiss⟩ := hname k h
    exact ⟨k, hmem, hmiss⟩
  · rintro ⟨k, hmem, hmiss⟩
    cases hfm : firstMissing inputs with
    | none =>
        rw [firstMissing, List.find?_eq_none] at hfm
        exact absurd hmiss (by simpa using hfm k hmem)
    | some k0 =>
        exact ⟨k0, compute_outputs_of_firstMissing hfm⟩
  · intro out w habs hok
    obtain ⟨r, hr, hout, -⟩ := compute_outputs_ok_elim hok
    obtain ⟨r0, s, hr0, hs, hrs⟩ := resolveInputs_ok_elim hr
    rw [getSatis_of_absent habs] at hs
    simp only [Except.ok.injEq] at hs
    subst hs
    subst hrs
    subst hout
    simp [coreOutputs]

/-- Input with `emsal` (and three more mandatory fields) absent. -/
def exMissing : Inputs := [("arsa_alani_m2", Value.num 5000)]

/-- Witness for C1 at a concrete incomplete input. -/
theorem claim_C1_witness :
    ∃ k, compute_outputs exMissing none = .error (.missingField k) :=
  (claim_C1 exMissing none).1.mpr ⟨"emsal", by decide, by decide⟩

end ClaimC1

deriving instance DecidableEq for Except

section ClaimC2

/-- Outputs the code produces for the worked example in cost-only mode
(no exchange rate). -/
def exOut : Outputs :=
  { emsal_insaat_alani_m2 := 9000
    satilabilir_alan_m2 := 11250
    toplam_insaat_alani_m2 := 18000
    insaat_maliyeti_usd := 16200000
    arsa_degeri_usd := 2000000
    toplam_proje_maliyeti_usd := 18200000
    insaat_maliyeti_try := none
    arsa_degeri_try := none
    toplam_proje_maliyeti_try := none
    yaklasik_konut_adedi := 93
    kalan_satilabilir_alan_m2 := 90
    breakeven_usd_m2 := 14560 / 9
    target_10_usd_m2 := 16016 / 9
    target_30_usd_m2 := 18928 / 9
    target_50_usd_m2 := 7280 / 3
    breakeven_try_m2 := none
    target_10_try_m2 := none
    target_30_try_m2 := none
    target_50_try_m2 := none
    satis_birim_fiyat_usd_m2 := none
    satis_birim_fiyat_try_m2 := none
    proje_hasilati_usd := none
    proje_hasilati_try := none
    proje_kari_usd := none
    proje_kari_try := none
    brut_karlilik_orani := none }

/-- The worked example with the sale price 2200 USD/m² added. -/
def exInputsRev : Inputs := setItem exInputs "satis_birim_fiyat_usd_m2" (.num 2200)

/-- Outputs for the worked example in revenue mode. -/
def exOutRev : Outputs :=
  { exOut with
    satis_birim_fiyat_usd_m2 := some 2200
    proje_hasilati_usd := some 24750000
    proje_kari_usd := some 6550000
    brut_karlilik_orani := some (131 / 364) }

/-- Claim C2 counterexample: on the spec's concrete scenario the code computes
`leftover_sellable_area = 11250 - 93 * 120 = 90`, not the 30 the claim
states. -/
lemma exInputs_eval :
    compute_outputs exInputs none = .ok (exOut, [wKurMissing]) := by
  norm_num +decide [compute_outputs, resolveInputs, resolveCost, checkRequired, firstMissing,
    requiredFields, missingOrEmpty, getItemNum, getItem, getOptNum, getSatis, pyFloat,
    dictDefault, dictGet, otopark_katsayi_table, insaat_maliyet_table, coreOutputs,
    coreWarnings, to_try, exInputs, exOut, satilabilir_katsayi_default,
    ortalama_konut_default, pure, Except.pure]

lemma exInputsRev_eval :
    compute_outputs exInputsRev none = .ok (exOutRev, [wKurMissing]) := by
  norm_num +decide [compute_outputs, resolveInputs, resolveCost, checkRequired, firstMissing,
    requiredFields, missingOrEmpty, getItemNum, getItem, getOptNum, getSatis, pyFloat,
    dictDefault, dictGet, otopark_katsayi_table, insaat_maliyet_table, coreOutputs,
    coreWarnings, to_try, exInputs, exInputsRev, setItem, exOut, exOutRev,
    satilabilir_katsayi_default, ortalama_konut_default, pure, Except.pure]

theorem claim_C2_counterexample :
    ∃ out w, compute_outputs exInputs none = .ok (out, w) ∧
      out.kalan_satilabilir_alan_m2 ≠ 30 :=
  ⟨exOut, [wKurMissing], exInputs_eval, by norm_num [exOut]⟩

/-- Claim C2 amended: the concrete scenario yields exactly the claimed values
except that the leftover sellable area is 90 m² (= 11250 − 93·120); in
revenue mode at 2200 USD/m² the revenue, profit and margin are as claimed
and no profitability flag fires (the only warning is the missing-rate
note). -/
theorem claim_C2_amended :
    compute_outputs exInputs none = .ok (exOut, [wKurMissing]) ∧
    exOut.emsal_insaat_alani_m2 = 9000 ∧
    exOut.satilabilir_alan_m2 = 11250 ∧
    exOut.toplam_insaat_alani_m2 = 18000 ∧
    exOut.insaat_maliyeti_usd = 16200000 ∧
    exOut.toplam_proje_maliyeti_usd = 18200000 ∧
    exOut.yaklasik_konut_adedi = 93 ∧
    exOut.kalan_satilabilir_alan_m2 = 90 ∧
    exOut.breakeven_usd_m2 = 14560 / 9 ∧
    |exOut.breakeven_usd_m2 - 1617.78| < 0.01 ∧
    exOut.target_10_usd_m2 = 16016 / 9 ∧
    |exOut.target_10_usd_m2 - 1779.56| < 0.01 ∧
    exOut.target_30_usd_m2 = 18928 / 9 ∧
    |exOut.target_30_usd_m2 - 2103.11| < 0.01 ∧
    exOut.target_50_usd_m2 = 7280 / 3 ∧
    |exOut.target_50_usd_m2 - 2426.67| < 0.01 ∧
    exOut.proje_hasilati_usd = none ∧
    exOut.proje_kari_usd = none ∧
    exOut.brut_karlilik_orani = none ∧
    compute_outputs exInputsRev none = .ok (exOutRev, [wKurMissing]) ∧
    exOutRev.proje_hasilati_usd = some 24750000 ∧
    exOutRev.proje_kari_usd = some 6550000 ∧
    exOutRev.brut_karlilik_orani = some (131 / 364) ∧
    |(131 : ℚ) / 364 - 0.36| < 0.01 ∧
    wLoss ∉ ([wKurMissing] : List String) ∧
    wLow ∉ ([wKurMissing] : List String) ∧
    wMid ∉ ([wKurMissing] : List String) := by
  refine ⟨exInputs_eval, ?_⟩
  norm_num +decide [exOut, exOutRev, exInputsRev_eval, wLoss, wLow, wMid, wKurMissing, abs_lt]

end ClaimC2

section ClaimC3

/-- Claim C3: for a valid parameter set without a sale price, all revenue-block
fields of the outputs are null; adding a positive sale price and
recomputing populates exactly the revenue-block fields (the mirrors
exactly when a rate is supplied, per the outputs' mirror convention)
while every one of the 19 other output fields is unchanged. -/
theorem claim_C3 (p : Inputs) (rate : Option ℚ) (out : Outputs) (w : List String) (q : ℚ)
    (habs : dictGet p "satis_birim_fiyat_usd_m2" = none)
    (hok : compute_outputs p rate = .ok (out, w))
    (hq : 0 < q) :
    (out.satis_birim_fiyat_usd_m2 = none ∧ out.satis_birim_fiyat_try_m2 = none ∧
     out.proje_hasilati_usd = none ∧ out.proje_hasilati_try = none ∧
     out.proje_kari_usd = none ∧ out.proje_kari_try = none ∧
     out.brut_karlilik_orani = none) ∧
    ∃ out' w', compute_outputs (setItem p "satis_birim_fiyat_usd_m2" (.num q)) rate = .ok (out', w') ∧
      (out'.satis_birim_fiyat_usd_m2 = some q ∧
       (out'.satis_birim_fiyat_try_m2.isSome ↔ rate.isSome) ∧
       out'.proje_hasilati_usd.isSome ∧
       (out'.proje_hasilati_try.isSome ↔ rate.isSome) ∧
       out'.proje_kari_usd.isSome ∧
       (out'.proje_kari_try.isSome ↔ rate.isSome) ∧
       out'.brut_karlilik_orani.isSome) ∧
      (out'.emsal_insaat_alani_m2 = out.emsal_insaat_alani_m2 ∧
       out'.satilabilir_alan_m2 = out.satilabilir_alan_m2 ∧
       out'.toplam_insaat_alani_m2 = out.toplam_insaat_alani_m2 ∧
       out'.insaat_maliyeti_usd = out.insaat_maliyeti_usd ∧
       out'.arsa_degeri_usd = out.arsa_degeri_usd ∧
       out'.toplam_proje_maliyeti_usd = out.toplam_proje_maliyeti_usd ∧
       out'.insaat_maliyeti_try = out.insaat_maliyeti_try ∧
       out'.arsa_degeri_try = out.arsa_degeri_try ∧
       out'.toplam_proje_maliyeti_try = out.toplam_proje_maliyeti_try ∧
       out'.yaklasik_konut_adedi = out.yaklasik_konut_adedi ∧
       out'.kalan_satilabilir_alan_m2 = out.kalan_satilabilir_alan_m2 ∧
       out'.breakeven_usd_m2 = out.breakeven_usd_m2 ∧
       out'.target_10_usd_m2 = out.target_10_usd_m2 ∧
       out'.target_30_usd_m2 = out.target_30_usd_m2 ∧
       out'.target_50_usd_m2 = out.target_50_usd_m2 ∧
       out'.breakeven_try_m2 = out.breakeven_try_m2 ∧
       out'.target_10_try_m2 = out.target_10_try_m2 ∧
       out'.target_30_try_m2 = out.target_30_try_m2 ∧
       out'.target_50_try_m2 = out.target_50_try_m2) := by
  obtain ⟨r, hr, hout, -⟩ := compute_outputs_ok_elim hok
  obtain ⟨r0, s, hr0, hs, hrs⟩ := resolveInputs_ok_elim hr
  rw [getSatis_of_absent habs] at hs
  simp only [Except.ok.injEq] at hs
  subst hs
  subst hrs
  subst hout
  have hr' := resolveInputs_setItem_satis (q := q) hr
  refine ⟨by simp [coreOutputs], _, _, compute_outputs_of_resolve hr', ?_, ?_⟩
  · cases rate <;> simp [coreOutputs, to_try, hq]
  · simp [coreOutputs, hq]

/-- Witness for C3 at the worked example with sale price 2200. -/
theorem claim_C3_witness :
    exOut.proje_hasilati_usd = none ∧ exOut.proje_kari_usd = none ∧
    ∃ out' w',
      compute_outputs (setItem exInputs "satis_birim_fiyat_usd_m2" (.num 2200)) none =
        .ok (out', w') ∧
      out'.proje_hasilati_usd.isSome ∧
      out'.satilabilir_alan_m2 = exOut.satilabilir_alan_m2 := by
  have h := claim_C3 exInputs none exOut [wKurMissing] 2200 (by decide) exInputs_eval
    (by norm_num)
  obtain ⟨hA, out', w', hok', hpop, hunch⟩ := h
  exact ⟨hA.2.2.1, hA.2.2.2.2.1, out', w', hok', hpop.2.2.1, hunch.2.1⟩

end ClaimC3

section CoreOutputsProjections

lemma coreOutputs_cost (r : Resolved) (rate : Option ℚ) :
    (coreOutputs r rate).satilabilir_alan_m2 = r.arsa * r.emsal * r.satilabilir_katsayi ∧
    (coreOutputs r rate).toplam_proje_maliyeti_usd =
      r.arsa * r.emsal * r.satilabilir_katsayi * r.otopark_katsayi * r.insaat_maliyet_birim +
        r.arsa_degeri ∧
    (coreOutputs r rate).breakeven_usd_m2 =
      (if r.arsa * r.emsal * r.satilabilir_katsayi > 0 then
        (r.arsa * r.emsal * r.satilabilir_katsayi * r.otopark_katsayi * r.insaat_maliyet_birim +
          r.arsa_degeri) / (r.arsa * r.emsal * r.satilabilir_katsayi)
      else 0) := by
  rcases hr : r.satis_fiyat with _ | s
  · simp [coreOutputs, hr]
  · by_cases hs : s > 0 <;> simp [coreOutputs, hr, hs]

lemma coreOutputs_revenue {r : Resolved} {s : ℚ} (rate : Option ℚ)
    (hr : r.satis_fiyat = some s) (hs : 0 < s) :
    (coreOutputs r rate).proje_kari_usd =
      some (r.arsa * r.emsal * r.satilabilir_katsayi * s -
        (r.arsa * r.emsal * r.satilabilir_katsayi * r.otopark_katsayi * r.insaat_maliyet_birim +
          r.arsa_degeri)) ∧
    (coreOutputs r rate).proje_kari_try =
      to_try rate (r.arsa * r.emsal * r.satilabilir_katsayi * s -
        (r.arsa * r.emsal * r.satilabilir_katsayi * r.otopark_katsayi * r.insaat_maliyet_birim +
          r.arsa_degeri)) ∧
    (coreOutputs r rate).brut_karlilik_orani =
      some (if r.arsa * r.emsal * r.satilabilir_katsayi * r.otopark_katsayi *
              r.insaat_maliyet_birim + r.arsa_degeri > 0 then
          (r.arsa * r.emsal * r.satilabilir_katsayi * s -
            (r.arsa * r.emsal * r.satilabilir_katsayi * r.otopark_katsayi *
              r.insaat_maliyet_birim + r.arsa_degeri)) /
            (r.arsa * r.emsal * r.satilabilir_katsayi * r.otopark_katsayi *
              r.insaat_maliyet_birim + r.arsa_degeri)
        else 0) := by
  refine ⟨?_, ?_, ?_⟩ <;> simp [coreOutputs, hr, hs]

end CoreOutputsProjections

section ClaimC5

/-- Claim C5: for a valid parameter set (positive sellable area and total
cost), recomputing with the sale price set to the break-even price of the
cost-only run yields a profit of exactly zero in rational arithmetic. -/
theorem claim_C5 (p : Inputs) (rate : Option ℚ) (out : Outputs) (w : List String)
    (habs : dictGet p "satis_birim_fiyat_usd_m2" = none)
    (hok : compute_outputs p rate = .ok (out, w))
    (hsat : 0 < out.satilabilir_alan_m2)
    (htop : 0 < out.toplam_proje_maliyeti_usd) :
    ∃ out' w',
      compute_outputs (setItem p "satis_birim_fiyat_usd_m2" (.num out.breakeven_usd_m2)) rate =
        .ok (out', w') ∧
      out'.proje_kari_usd = some 0 := by
  obtain ⟨r, hr, hout, -⟩ := compute_outputs_ok_elim hok
  subst hout
  obtain ⟨hcs, hct, hcb⟩ := coreOutputs_cost r rate
  rw [hcs] at hsat
  rw [hct] at htop
  have hb : (coreOutputs r rate).breakeven_usd_m2 =
      (r.arsa * r.emsal * r.satilabilir_katsayi * r.otopark_katsayi * r.insaat_maliyet_birim +
        r.arsa_degeri) / (r.arsa * r.emsal * r.satilabilir_katsayi) := by
    rw [hcb, if_pos hsat]
  have hbpos : 0 < (coreOutputs r rate).breakeven_usd_m2 := by
    rw [hb]
    exact div_pos htop hsat
  have hr' := resolveInputs_setItem_satis (q := (coreOutputs r rate).breakeven_usd_m2) hr
  refine ⟨_, _, compute_outputs_of_resolve hr', ?_⟩
  have hrev := coreOutputs_revenue (r := { r with satis_fiyat := some (coreOutputs r rate).breakeven_usd_m2 })
    rate rfl hbpos
  rw [hrev.1]
  simp only [Option.some.injEq]
  rw [hb]
  rw [mul_comm (r.arsa * r.emsal * r.satilabilir_katsayi)]
  rw [div_mul_cancel₀ _ (ne_of_gt hsat)]
  ring

/-- Witness for C5 at the worked example. -/
theorem claim_C5_witness :
    ∃ out' w',
      compute_outputs
          (setItem exInputs "satis_birim_fiyat_usd_m2" (.num exOut.breakeven_usd_m2)) none =
        .ok (out', w') ∧
      out'.proje_kari_usd = some 0 :=
  claim_C5 exInputs none exOut [wKurMissing] (by decide) exInputs_eval
    (by norm_num [exOut]) (by norm_num [exOut])

end ClaimC5

section ClaimC6

/-- Claim C6: with everything but the sale price held fixed on a valid
parameter set (positive sellable area and total cost), a strictly larger
positive sale price yields strictly larger profit and strictly larger
gross margin. -/
theorem claim_C6 (p : Inputs) (rate : Option ℚ) (s1 s2 : ℚ)
    (out1 out2 : Outputs) (w1 w2 : List String)
    (hs1 : 0 < s1) (h12 : s1 < s2)
    (hok1 : compute_outputs (setItem p "satis_birim_fiyat_usd_m2" (.num s1)) rate = .ok (out1, w1))
    (hok2 : compute_outputs (setItem p "satis_birim_fiyat_usd_m2" (.num s2)) rate = .ok (out2, w2))
    (hsat : 0 < out1.satilabilir_alan_m2)
    (htop : 0 < out1.toplam_proje_maliyeti_usd) :
    ∃ k1 k2 m1 m2,
      out1.proje_kari_usd = some k1 ∧ out2.proje_kari_usd = some k2 ∧ k1 < k2 ∧
      out1.brut_karlilik_orani = some m1 ∧ out2.brut_karlilik_orani = some m2 ∧ m1 < m2 := by
  have hs2 : 0 < s2 := hs1.trans h12
  obtain ⟨ra, hra, hout1, -⟩ := compute_outputs_ok_elim hok1
  obtain ⟨rb, hrb, hout2, -⟩ := compute_outputs_ok_elim hok2
  obtain ⟨r0a, sa, hr0a, hsa, hrsa⟩ := resolveInputs_ok_elim hra
  obtain ⟨r0b, sb, hr0b, hsb, hrsb⟩ := resolveInputs_ok_elim hrb
  rw [resolveCost_setItem_satis] at hr0a hr0b
  rw [hr0a] at hr0b
  simp only [Except.ok.injEq] at hr0b
  subst hr0b
  simp only [getSatis, dictGet_setItem_self, pyFloat, ok_bind, pure, Except.pure,
    Except.ok.injEq] at hsa hsb
  subst hsa
  subst hsb
  subst hrsa
  subst hrsb
  subst hout1
  subst hout2
  obtain ⟨hk1, -, hm1⟩ := coreOutputs_revenue (r := { r0a with satis_fiyat := some s1 }) rate rfl hs1
  obtain ⟨hk2, -, hm2⟩ := coreOutputs_revenue (r := { r0a with satis_fiyat := some s2 }) rate rfl hs2
  obtain ⟨hcs, hct, -⟩ := coreOutputs_cost { r0a with satis_fiyat := some s1 } rate
  rw [hcs] at hsat
  rw [hct] at htop
  simp only at hsat htop hk1 hk2 hm1 hm2
  refine ⟨_, _, _, _, hk1, hk2, ?_, hm1, hm2, ?_⟩
  · have := mul_lt_mul_of_pos_left h12 hsat
    exact sub_lt_sub_right this _
  · rw [if_pos htop, if_pos htop]
    have hkk : r0a.arsa * r0a.emsal * r0a.satilabilir_katsayi * s1 -
        (r0a.arsa * r0a.emsal * r0a.satilabilir_katsayi * r0a.otopark_katsayi *
          r0a.insaat_maliyet_birim + r0a.arsa_degeri) <
        r0a.arsa * r0a.emsal * r0a.satilabilir_katsayi * s2 -
        (r0a.arsa * r0a.emsal * r0a.satilabilir_katsayi * r0a.otopark_katsayi *
          r0a.insaat_maliyet_birim + r0a.arsa_degeri) := by
      have := mul_lt_mul_of_pos_left h12 hsat
      exact sub_lt_sub_right this _
    gcongr

/-- Witness for C6 at the worked example with sale prices 2000 < 2200. -/
theorem claim_C6_witness :
    ∃ k1 k2 m1 m2,
      (0 : ℚ) < 2000 ∧ (2000 : ℚ) < 2200 ∧
      ∃ out1 w1 out2 w2,
        compute_outputs (setItem exInputs "satis_birim_fiyat_usd_m2" (.num 2000)) none =
          .ok (out1, w1) ∧
        compute_outputs (setItem exInputs "satis_birim_fiyat_usd_m2" (.num 2200)) none =
          .ok (out2, w2) ∧
        out1.proje_kari_usd = some k1 ∧ out2.proje_kari_usd = some k2 ∧ k1 < k2 ∧
        out1.brut_karlilik_orani = some m1 ∧ out2.brut_karlilik_orani = some m2 ∧ m1 < m2 := by
  have h1 : compute_outputs (setItem exInputs "satis_birim_fiyat_usd_m2" (.num 2000)) none =
      .ok ({ exOut with
              satis_birim_fiyat_usd_m2 := some 2000
              proje_hasilati_usd := some 22500000
              proje_kari_usd := some 4300000
              brut_karlilik_orani := some (43 / 182) }, [wKurMissing]) := by
    norm_num +decide [compute_outputs, resolveInputs, resolveCost, checkRequired, firstMissing,
      requiredFields, missingOrEmpty, getItemNum, getItem, getOptNum, getSatis, pyFloat,
      dictDefault, dictGet, otopark_katsayi_table, insaat_maliyet_table, coreOutputs,
      coreWarnings, to_try, exInputs, setItem, exOut, satilabilir_katsayi_default,
      ortalama_konut_default, pure, Except.pure]
  obtain ⟨k1, k2, m1, m2, hk1, hk2, hklt, hm1, hm2, hmlt⟩ :=
    claim_C6 exInputs none 2000 2200 _ _ _ _ (by norm_num) (by norm_num) h1 exInputsRev_eval
      (by norm_num [exOut]) (by norm_num [exOut])
  exact ⟨k1, k2, m1, m2, by norm_num, by norm_num, _, _, _, _, h1, exInputsRev_eval,
    hk1, hk2, hklt, hm1, hm2, hmlt⟩

end ClaimC6

section ClaimC4

/-- At the pair of unit multipliers the perturbed input of the
sensitivity loop resolves to the base resolution, so the full outputs
coincide with the base case. -/
lemma compute_center_eq {p : Inputs} {rate : Option ℚ} {r0 : Resolved} (s : ℚ)
    (hr0 : resolveCost p = .ok r0) :
    compute_outputs
        (setItem (setItem p "satis_birim_fiyat_usd_m2" (.num (s * 1)))
          "insaat_maliyet_usd_m2" (.num (r0.insaat_maliyet_birim * 1))) rate =
      .ok (coreOutputs { r0 with satis_fiyat := some s } rate,
        coreWarnings { r0 with satis_fiyat := some s } rate
          (coreOutputs { r0 with satis_fiyat := some s } rate).brut_karlilik_orani) := by
  have h1 : resolveCost (setItem p "satis_birim_fiyat_usd_m2" (.num (s * 1))) = .ok r0 := by
    rw [resolveCost_setItem_satis]
    exact hr0
  have h2 := resolveCost_setItem_maliyet (c := r0.insaat_maliyet_birim * 1) h1
  have hgs : getSatis (setItem (setItem p "satis_birim_fiyat_usd_m2" (.num (s * 1)))
      "insaat_maliyet_usd_m2" (.num (r0.insaat_maliyet_birim * 1))) = .ok (some (s * 1)) := by
    simp [getSatis,
      dictGet_setItem_ne _ _ (show "satis_birim_fiyat_usd_m2" ≠ "insaat_maliyet_usd_m2" by decide),
      pyFloat, pure, Except.pure]
  have h3 : resolveInputs (setItem (setItem p "satis_birim_fiyat_usd_m2" (.num (s * 1)))
      "insaat_maliyet_usd_m2" (.num (r0.insaat_maliyet_birim * 1))) =
      .ok { r0 with satis_fiyat := some s } := by
    unfold resolveInputs
    rw [h2]
    simp only [ok_bind]
    rw [hgs]
    simp [pure, Except.pure, mul_one]
  exact compute_outputs_of_resolve h3

/-- The center cell of the sensitivity grid records exactly the base-case
profit and margin. -/
lemma sensCell_center {p : Inputs} {rate : Option ℚ} {r0 : Resolved} {s : ℚ}
    (hr0 : resolveCost p = .ok r0)
    (hvs : dictGet p "satis_birim_fiyat_usd_m2" = some (.num s)) :
    sensCell p rate 1 1 = .ok
      { sales_mult := 1, cost_mult := 1,
        profit_usd := (coreOutputs { r0 with satis_fiyat := some s } rate).proje_kari_usd,
        profit_try := (coreOutputs { r0 with satis_fiyat := some s } rate).proje_kari_try,
        gross_margin := (coreOutputs { r0 with satis_fiyat := some s } rate).brut_karlilik_orani } := by
  obtain ⟨-, -, -, -, -, ⟨vk, kd, hvk, hkd, h5⟩, -, -, -⟩ := resolveCost_ok_elim hr0
  have hsat1 : getItem p "satis_birim_fiyat_usd_m2" = .ok (.num s) := by
    simp [getItem, hvs]
  have hmal : dictGet (setItem p "satis_birim_fiyat_usd_m2" (.num (s * 1)))
      "insaat_maliyet_usd_m2" = dictGet p "insaat_maliyet_usd_m2" :=
    dictGet_setItem_ne _ _ (by decide)
  have hvk' : getItem (setItem p "satis_birim_fiyat_usd_m2" (.num (s * 1))) "konut_sinifi" =
      .ok vk := by
    rw [getItem_setItem_ne _ _ (by decide)]
    exact hvk
  cases hv : dictGet p "insaat_maliyet_usd_m2" with
  | none =>
      have hmkd : kd = r0.insaat_maliyet_birim := by
        simp [getOptNum, hv, pyFloat] at h5
        exact h5
      simp only [sensCell, hsat1, ok_bind, pyFloat, hmal, hv, hvk', hkd, hmkd,
        compute_center_eq s hr0, pure, Except.pure]
  | some v =>
      cases v with
      | null => simp [getOptNum, hv, pyFloat] at h5
      | str sv => simp [getOptNum, hv, pyFloat] at h5
      | num mv =>
          have hmv : mv = r0.insaat_maliyet_birim := by
            simp [getOptNum, hv, pyFloat] at h5
            exact h5
          simp only [sensCell, hsat1, ok_bind, pyFloat, hmal, hv, hmv,
            compute_center_eq s hr0, pure, Except.pure]
          simp

/-- Claim C4: in revenue mode (positive numeric sale price present), the center
cell of the sensitivity grid — cost multiplier 1.0, sale multiplier
1.0 — records exactly the base-case profit (USD and TRY) and gross
margin returned by `compute_outputs`. -/
theorem claim_C4 (p : Inputs) (rate : Option ℚ) (sres : SensResult) (out : Outputs)
    (w : List String) (q : ℚ)
    (hq : dictGet p "satis_birim_fiyat_usd_m2" = some (.num q)) (hqpos : 0 < q)
    (hs : sensitivity p rate = .ok sres)
    (hbase : compute_outputs p rate = .ok (out, w)) :
    ∃ row cell, sres.grid.get? 1 = some row ∧ row.get? 1 = some cell ∧
      cell.cost_mult = 1 ∧ cell.sales_mult = 1 ∧
      cell.profit_usd = out.proje_kari_usd ∧
      cell.profit_try = out.proje_kari_try ∧
      cell.gross_margin = out.brut_karlilik_orani := by
  obtain ⟨r, hr, hout, -⟩ := compute_outputs_ok_elim hbase
  obtain ⟨r0, s0, hr0, hs0, hrs⟩ := resolveInputs_ok_elim hr
  have hs0' : s0 = some q := by
    simp [getSatis, hq, pyFloat, pure, Except.pure] at hs0
    exact hs0.symm
  subst hs0'
  simp only [sensitivity] at hs
  rw [hbase] at hs
  simp only [ok_bind] at hs
  rw [show missingOrEmpty p "satis_birim_fiyat_usd_m2" = false by simp [missingOrEmpty, hq]]
    at hs
  simp only [Bool.false_eq_true, if_false, cost_mults, sales_mults,
    List.mapM_cons, List.mapM_nil, pure, Except.pure, ok_bind] at hs
  obtain ⟨grid, hgrid, hpure⟩ := except_bind_ok hs
  obtain ⟨rowA, hrowA, h⟩ := except_bind_ok hgrid
  obtain ⟨rowBC, hBC, h⟩ := except_bind_ok h
  simp only [Except.ok.injEq] at h
  subst h
  obtain ⟨rowB, hrowB, h2⟩ := except_bind_ok hBC
  obtain ⟨rowCC, hCC, h2⟩ := except_bind_ok h2
  simp only [Except.ok.injEq] at h2
  subst h2
  obtain ⟨c21, hc21, k⟩ := except_bind_ok hrowB
  obtain ⟨c2rest, hc2rest, k⟩ := except_bind_ok k
  simp only [Except.ok.injEq] at k
  subst k
  obtain ⟨c22, hc22, k2⟩ := except_bind_ok hc2rest
  obtain ⟨c3rest, hc3rest, k2⟩ := except_bind_ok k2
  simp only [Except.ok.injEq] at k2
  subst k2
  simp only [Except.ok.injEq] at hpure
  subst hpure
  rw [sensCell_center hr0 hq] at hc22
  simp only [Except.ok.injEq] at hc22
  refine ⟨c21 :: c22 :: c3rest, c22, by simp, by simp, ?_⟩
  rw [← hc22]
  subst hout
  subst hrs
  simp

end ClaimC4

/-- The sensitivity result the code produces for the worked example in
revenue mode (no exchange rate): profits and cost-based margins across
the 3×3 multiplier grid. -/
def exSens : SensResult :=
  { base := exOutRev
    grid := [
      [ { sales_mult := 0.9, cost_mult := 0.9, profit_usd := some 5695000,
          profit_try := none, gross_margin := some (1139 / 3316) },
        { sales_mult := 1, cost_mult := 0.9, profit_usd := some 8170000,
          profit_try := none, gross_margin := some (817 / 1658) },
        { sales_mult := 1.1, cost_mult := 0.9, profit_usd := some 10645000,
          profit_try := none, gross_margin := some (2129 / 3316) } ],
      [ { sales_mult := 0.9, cost_mult := 1, profit_usd := some 4075000,
          profit_try := none, gross_margin := some (163 / 728) },
        { sales_mult := 1, cost_mult := 1, profit_usd := some 6550000,
          profit_try := none, gross_margin := some (131 / 364) },
        { sales_mult := 1.1, cost_mult := 1, profit_usd := some 9025000,
          profit_try := none, gross_margin := some (361 / 728) } ],
      [ { sales_mult := 0.9, cost_mult := 1.1, profit_usd := some 2455000,
          profit_try := none, gross_margin := some (491 / 3964) },
        { sales_mult := 1, cost_mult := 1.1, profit_usd := some 4930000,
          profit_try := none, gross_margin := some (493 / 1982) },
        { sales_mult := 1.1, cost_mult := 1.1, profit_usd := some 7405000,
          profit_try := none, gross_margin := some (1481 / 3964) } ] ]
    sales_mults := sales_mults
    cost_mults := cost_mults }

set_option maxHeartbeats 3200000 in
lemma exSens_eval : sensitivity exInputsRev none = .ok exSens := by
  norm_num +decide [sensitivity, sensCell, compute_outputs, resolveInputs, resolveCost,
    checkRequired, firstMissing, requiredFields, missingOrEmpty, getItemNum, getItem,
    getOptNum, getSatis, pyFloat, dictDefault, dictGet, setItem, otopark_katsayi_table,
    insaat_maliyet_table, coreOutputs, coreWarnings, to_try, exInputs, exInputsRev, exSens,
    exOutRev, exOut, sales_mults, cost_mults, satilabilir_katsayi_default,
    ortalama_konut_default, List.mapM_cons, List.mapM_nil, List.mapM.loop, pure, Except.pure]

/-- Witness for C4 at the worked example in revenue mode. -/
theorem claim_C4_witness :
    ∃ row cell, exSens.grid.get? 1 = some row ∧ row.get? 1 = some cell ∧
      cell.cost_mult = 1 ∧ cell.sales_mult = 1 ∧
      cell.profit_usd = exOutRev.proje_kari_usd ∧
      cell.profit_try = exOutRev.proje_kari_try ∧
      cell.gross_margin = exOutRev.brut_karlilik_orani :=
  claim_C4 exInputsRev none exSens exOutRev [wKurMissing] 2200 (by decide) (by norm_num)
    exSens_eval exInputsRev_eval

section ClaimC7

/-- Input whose five mandatory fields are present but whose parking type
is the unrecognized enum value `"FOO"`, with no explicit parking
coefficient. -/
def exBadEnum : Inputs :=
  [("arsa_alani_m2", .num 1000), ("emsal", .num 1), ("otopark_tipi", .str "FOO"),
   ("konut_sinifi", .str "ORTA"), ("arsa_toplam_degeri_usd", .num 100000)]

/-- Claim C7 counterexample: on an unrecognized parking type with the
coefficient absent, `compute_outputs` fails with a `KeyError` carrying
the unrecognized enum value `"FOO"` — not with a MissingField-style error
naming the `otopark_katsayi` field it could not derive. -/
theorem claim_C7_counterexample :
    compute_outputs exBadEnum none = .error (.keyError (.str "FOO")) ∧
    compute_outputs exBadEnum none ≠ .error (.missingField "otopark_katsayi") ∧
    ∀ k, compute_outputs exBadEnum none ≠ .error (.missingField k) := by
  have h : compute_outputs exBadEnum none = .error (.keyError (.str "FOO")) := by decide
  refine ⟨h, ?_, fun k hcon => ?_⟩
  · rw [h]
    simp
  · rw [h] at hcon
    simp at hcon

/-- Claim C7 amended: under well-typed numeric inputs, when the parking type
(or, with a valid parking type and well-typed coefficient, the housing
class) is an unrecognized enum value, `compute_outputs` fails — but with
a `KeyError` naming the unrecognized enum value rather than an error
naming the underivable coefficient/cost field, and never with the
MissingField error. -/
theorem claim_C7_amended (inputs : Inputs) (rate : Option ℚ)
    (hreq : firstMissing inputs = none)
    (ha : ∃ qa, dictGet inputs "arsa_alani_m2" = some (.num qa))
    (he : ∃ qe, dictGet inputs "emsal" = some (.num qe))
    (hsk : dictGet inputs "satilabilir_katsayi" = none ∨
      ∃ qs, dictGet inputs "satilabilir_katsayi" = some (.num qs))
    (hcase :
      (∃ vt, dictGet inputs "otopark_tipi" = some vt ∧ otopark_katsayi_table vt = none) ∨
      ((∃ vt d, dictGet inputs "otopark_tipi" = some vt ∧ otopark_katsayi_table vt = some d) ∧
       (dictGet inputs "otopark_katsayi" = none ∨
         ∃ qo, dictGet inputs "otopark_katsayi" = some (.num qo)) ∧
       (∃ vk, dictGet inputs "konut_sinifi" = some vk ∧ insaat_maliyet_table vk = none))) :
    ∃ v, compute_outputs inputs rate = .error (.keyError v) ∧
      (otopark_katsayi_table v = none ∨ insaat_maliyet_table v = none) ∧
      (∀ k, (PyError.keyError v) ≠ .missingField k) := by
  obtain ⟨qa, hqa⟩ := ha
  obtain ⟨qe, hqe⟩ := he
  have hchk : checkRequired inputs = .ok () := by simp [checkRequired, hreq]
  have h1 : getItemNum inputs "arsa_alani_m2" = .ok qa := by
    simp [getItemNum, getItem, hqa, pyFloat]
  have h2 : getItemNum inputs "emsal" = .ok qe := by
    simp [getItemNum, getItem, hqe, pyFloat]
  have h3 : ∃ qs, getOptNum inputs "satilabilir_katsayi" satilabilir_katsayi_default = .ok qs := by
    rcases hsk with h | ⟨qs, h⟩
    · exact ⟨satilabilir_katsayi_default, by simp [getOptNum, h, pyFloat]⟩
    · exact ⟨qs, by simp [getOptNum, h, pyFloat]⟩
  obtain ⟨qs, h3⟩ := h3
  rcases hcase with ⟨vt, hvt, htab⟩ | ⟨⟨vt, d, hvt, htab⟩, hok, ⟨vk, hvk, hktab⟩⟩
  · refine ⟨vt, ?_, Or.inl htab, fun k hcon => by simp at hcon⟩
    rw [compute_outputs_error_iff]
    unfold resolveInputs resolveCost
    simp [hchk, h1, h2, h3, getItem, hvt, dictDefault, htab]
  · have h4 : ∃ qo, getOptNum inputs "otopark_katsayi" d = .ok qo := by
      rcases hok with h | ⟨qo, h⟩
      · exact ⟨d, by simp [getOptNum, h, pyFloat]⟩
      · exact ⟨qo, by simp [getOptNum, h, pyFloat]⟩
    obtain ⟨qo, h4⟩ := h4
    refine ⟨vk, ?_, Or.inr hktab, fun k hcon => by simp at hcon⟩
    rw [compute_outputs_error_iff]
    unfold resolveInputs resolveCost
    simp [hchk, h1, h2, h3, h4, getItem, hvt, hvk, dictDefault, htab, hktab]

/-- Witness for the amended C7 at the concrete bad-enum input. -/
theorem claim_C7_amended_witness :
    ∃ v, compute_outputs exBadEnum none = .error (.keyError v) ∧
      (otopark_katsayi_table v = none ∨ insaat_maliyet_table v = none) ∧
      (∀ k, (PyError.keyError v) ≠ .missingField k) :=
  claim_C7_amended exBadEnum none (by decide) ⟨1000, by decide⟩ ⟨1, by decide⟩
    (Or.inl (by decide)) (Or.inl ⟨.str "FOO", by decide, by decide⟩)

end ClaimC7

section ClaimC8

lemma if_append (c : Prop) [Decidable c] (w l : List String) :
    (if c then w ++ l else w) = w ++ (if c then l else []) := by
  split <;> simp

lemma if_append2 (c : Prop) [Decidable c] (w l1 l2 : List String) :
    (if c then w ++ l1 else w ++ l2) = w ++ (if c then l1 else l2) := by
  split <;> rfl

/-- Claim C8: the warning list returned with any successful computation is
exactly the concatenation of the applicable warnings in the fixed order:
the six hard-sanity checks, then the four plausibility hints (high far
ratio, sellable coefficient outside [1.0, 1.6], average unit size outside
[60, 250], missing exchange rate), then — only when a gross margin was
computed — exactly one profitability flag for margin < 0.20 (loss /
low / mid bands) and none for margin ≥ 0.20; every check fires
independently. -/
theorem claim_C8 (inputs : Inputs) (rate : Option ℚ) (r : Resolved) (out : Outputs)
    (w : List String)
    (hres : resolveInputs inputs = .ok r)
    (hok : compute_outputs inputs rate = .ok (out, w)) :
    w = (if r.emsal ≤ 0 then [wEmsalNonpos] else []) ++
        (if r.arsa ≤ 0 then [wArsaNonpos] else []) ++
        (if r.satilabilir_katsayi ≤ 0 then [wSatKatNonpos] else []) ++
        (if r.otopark_katsayi ≤ 0 then [wOtoparkNonpos] else []) ++
        (if r.arsa_degeri < 0 then [wArsaDegeriNeg] else []) ++
        (if r.insaat_maliyet_birim ≤ 0 then [wMaliyetNonpos] else []) ++
        (if r.emsal > 5 then [wEmsalHigh] else []) ++
        (if r.satilabilir_katsayi < 1.0 ∨ r.satilabilir_katsayi > 1.6 then [wSatKatRange] else []) ++
        (if r.ort_konut < 60 ∨ r.ort_konut > 250 then [wOrtKonutRange] else []) ++
        (if rate = none then [wKurMissing] else []) ++
        (match out.brut_karlilik_orani with
         | none => []
         | some gm =>
             if gm < 0 then [wLoss]
             else if gm < 0.10 then [wLow]
             else if gm < 0.20 then [wMid]
             else []) := by
  obtain ⟨r', hr', hout, hw⟩ := compute_outputs_ok_elim hok
  rw [hres] at hr'
  simp only [Except.ok.injEq] at hr'
  subst hr'
  subst hout
  subst hw
  simp only [coreWarnings]
  rcases hb : (coreOutputs r rate).brut_karlilik_orani with _ | gm
  · simp only [if_append]
    simp [List.append_assoc]
  · simp only [if_append, if_append2]
    simp [List.append_assoc]

/-- The resolved record of the worked revenue-mode example. -/
def exResolvedRev : Resolved :=
  ⟨5000, 9 / 5, 5 / 4, 8 / 5, 900, 2000000, 120, some 2200⟩

lemma exResolvedRev_eval : resolveInputs exInputsRev = .ok exResolvedRev := by
  norm_num +decide [resolveInputs, resolveCost, checkRequired, firstMissing, requiredFields,
    missingOrEmpty, getItemNum, getItem, getOptNum, getSatis, pyFloat, dictDefault, dictGet,
    setItem, otopark_katsayi_table, insaat_maliyet_table, exInputs, exInputsRev, exResolvedRev,
    satilabilir_katsayi_default, ortalama_konut_default, pure, Except.pure]

/-- Witness for C8 at the worked revenue-mode example, whose only
applicable warning is the missing-exchange-rate note. -/
theorem claim_C8_witness :
    [wKurMissing] =
      (if exResolvedRev.emsal ≤ 0 then [wEmsalNonpos] else []) ++
      (if exResolvedRev.arsa ≤ 0 then [wArsaNonpos] else []) ++
      (if exResolvedRev.satilabilir_katsayi ≤ 0 then [wSatKatNonpos] else []) ++
      (if exResolvedRev.otopark_katsayi ≤ 0 then [wOtoparkNonpos] else []) ++
      (if exResolvedRev.arsa_degeri < 0 then [wArsaDegeriNeg] else []) ++
      (if exResolvedRev.insaat_maliyet_birim ≤ 0 then [wMaliyetNonpos] else []) ++
      (if exResolvedRev.emsal > 5 then [wEmsalHigh] else []) ++
      (if exResolvedRev.satilabilir_katsayi < 1.0 ∨ exResolvedRev.satilabilir_katsayi > 1.6 then
        [wSatKatRange] else []) ++
      (if exResolvedRev.ort_konut < 60 ∨ exResolvedRev.ort_konut > 250 then
        [wOrtKonutRange] else []) ++
      (if (none : Option ℚ) = none then [wKurMissing] else []) ++
      (match exOutRev.brut_karlilik_orani with
       | none => []
       | some gm =>
           if gm < 0 then [wLoss]
           else if gm < 0.10 then [wLow]
           else if gm < 0.20 then [wMid]
           else []) :=
  claim_C8 exInputsRev none exResolvedRev exOutRev [wKurMissing] exResolvedRev_eval
    exInputsRev_eval

end ClaimC8

section ClaimC9

lemma containsKey_setItem_self (m : Inputs) (k : String) (v : Value) :
    containsKey (setItem m k v) k = true := by
  simp [containsKey, dictGet_setItem_self]

lemma containsKey_mono_setItem {m : Inputs} {k' : String} (k : String) (v : Value)
    (h : containsKey m k' = true) : containsKey (setItem m k v) k' = true := by
  by_cases hk : k' = k
  · subst hk
    exact containsKey_setItem_self m k' v
  · simpa [containsKey, dictGet_setItem_ne m v hk] using h

lemma containsKey_setdefault_self (m : Inputs) (k : String) (v : Value) :
    containsKey (setdefault m k v) k = true := by
  unfold setdefault
  split
  · assumption
  · exact containsKey_setItem_self m k v

lemma containsKey_mono_setdefault {m : Inputs} {k' : String} (k : String) (v : Value)
    (h : containsKey m k' = true) : containsKey (setdefault m k v) k' = true := by
  unfold setdefault
  split
  · exact h
  · exact containsKey_mono_setItem k v h

lemma dictGet_setdefault_ne (m : Inputs) (v : Value) {k' k : String} (h : k' ≠ k) :
    dictGet (setdefault m k v) k' = dictGet m k' := by
  unfold setdefault
  split
  · rfl
  · exact dictGet_setItem_ne m v h

/-- All four defaults have been applied: the two unconditional keys are
present, and each enum-conditional key is present whenever its enum field
holds a recognized value. -/
def defaultsApplied (m : Inputs) : Prop :=
  containsKey m "satilabilir_katsayi" = true ∧
  containsKey m "ortalama_konut_m2" = true ∧
  (∀ v d, dictGet m "otopark_tipi" = some v → otopark_katsayi_table v = some d →
    containsKey m "otopark_katsayi" = true) ∧
  (∀ v d, dictGet m "konut_sinifi" = some v → insaat_maliyet_table v = some d →
    containsKey m "insaat_maliyet_usd_m2" = true)

lemma fillOtopark_mono_containsKey {m : Inputs} {k' : String}
    (h : containsKey m k' = true) : containsKey (fillOtopark m) k' = true := by
  cases hv : dictGet m "otopark_tipi" with
  | none => simpa [fillOtopark, hv] using h
  | some v =>
      cases ht : otopark_katsayi_table v with
      | none => simpa [fillOtopark, hv, ht] using h
      | some d =>
          by_cases hc : containsKey m "otopark_katsayi" = true
          · simpa [fillOtopark, hv, ht, hc] using h
          · simp only [fillOtopark, hv, ht, hc, if_false]
            exact containsKey_mono_setItem _ _ h

lemma fillKonut_mono_containsKey {m : Inputs} {k' : String}
    (h : containsKey m k' = true) : containsKey (fillKonut m) k' = true := by
  cases hv : dictGet m "konut_sinifi" with
  | none => simpa [fillKonut, hv] using h
  | some v =>
      cases ht : insaat_maliyet_table v with
      | none => simpa [fillKonut, hv, ht] using h
      | some d =>
          by_cases hc : containsKey m "insaat_maliyet_usd_m2" = true
          · simpa [fillKonut, hv, ht, hc] using h
          · simp only [fillKonut, hv, ht, hc, if_false]
            exact containsKey_mono_setItem _ _ h

lemma fillOtopark_dictGet_ne (m : Inputs) {k' : String} (h : k' ≠ "otopark_katsayi") :
    dictGet (fillOtopark m) k' = dictGet m k' := by
  cases hv : dictGet m "otopark_tipi" with
  | none => simp [fillOtopark, hv]
  | some v =>
      cases ht : otopark_katsayi_table v with
      | none => simp [fillOtopark, hv, ht]
      | some d =>
          by_cases hc : containsKey m "otopark_katsayi" = true
          · simp [fillOtopark, hv, ht, hc]
          · simp [fillOtopark, hv, ht, hc, dictGet_setItem_ne m _ h]

lemma fillKonut_dictGet_ne (m : Inputs) {k' : String} (h : k' ≠ "insaat_maliyet_usd_m2") :
    dictGet (fillKonut m) k' = dictGet m k' := by
  cases hv : dictGet m "konut_sinifi" with
  | none => simp [fillKonut, hv]
  | some v =>
      cases ht : insaat_maliyet_table v with
      | none => simp [fillKonut, hv, ht]
      | some d =>
          by_cases hc : containsKey m "insaat_maliyet_usd_m2" = true
          · simp [fillKonut, hv, ht, hc]
          · simp [fillKonut, hv, ht, hc, dictGet_setItem_ne m _ h]

lemma fillOtopark_applied (m : Inputs) :
    ∀ v d, dictGet (fillOtopark m) "otopark_tipi" = some v → otopark_katsayi_table v = some d →
      containsKey (fillOtopark m) "otopark_katsayi" = true := by
  intro v d hv hd
  rw [fillOtopark_dictGet_ne m (by decide)] at hv
  by_cases hc : containsKey m "otopark_katsayi" = true
  · simp only [fillOtopark, hv, hd, hc, if_true]
  · simp only [fillOtopark, hv, hd, hc, if_false]
    exact containsKey_setItem_self _ _ _

lemma fillKonut_applied (m : Inputs) :
    ∀ v d, dictGet (fillKonut m) "konut_sinifi" = some v → insaat_maliyet_table v = some d →
      containsKey (fillKonut m) "insaat_maliyet_usd_m2" = true := by
  intro v d hv hd
  rw [fillKonut_dictGet_ne m (by decide)] at hv
  by_cases hc : containsKey m "insaat_maliyet_usd_m2" = true
  · simp only [fillKonut, hv, hd, hc, if_true]
  · simp only [fillKonut, hv, hd, hc, if_false]
    exact containsKey_setItem_self _ _ _

lemma ensure_defaults_applied (x : Inputs) : defaultsApplied (ensure_defaults x) := by
  unfold ensure_defaults
  refine ⟨?_, ?_, ?_, fillKonut_applied _⟩
  · exact fillKonut_mono_containsKey (fillOtopark_mono_containsKey
      (containsKey_mono_setdefault _ _ (containsKey_setdefault_self _ _ _)))
  · exact fillKonut_mono_containsKey (fillOtopark_mono_containsKey
      (containsKey_setdefault_self _ _ _))
  · intro v d hv hd
    rw [fillKonut_dictGet_ne _ (by decide)] at hv
    exact fillKonut_mono_containsKey
      ((fillOtopark_applied (fillOrtKonut (fillSatKat x))) v d hv hd)

lemma ensure_defaults_of_applied {m : Inputs} (h : defaultsApplied m) :
    ensure_defaults m = m := by
  obtain ⟨h1, h2, h3, h4⟩ := h
  have e1 : fillSatKat m = m := by
    unfold fillSatKat setdefault
    rw [if_pos h1]
  have e2 : fillOrtKonut m = m := by
    unfold fillOrtKonut setdefault
    rw [if_pos h2]
  have e3 : fillOtopark m = m := by
    cases hv : dictGet m "otopark_tipi" with
    | none => simp [fillOtopark, hv]
    | some v =>
        cases hd : otopark_katsayi_table v with
        | none => simp [fillOtopark, hv, hd]
        | some d => simp [fillOtopark, hv, hd, h3 v d hv hd]
  have e4 : fillKonut m = m := by
    cases hv : dictGet m "konut_sinifi" with
    | none => simp [fillKonut, hv]
    | some v =>
        cases hd : insaat_maliyet_table v with
        | none => simp [fillKonut, hv, hd]
        | some d => simp [fillKonut, hv, hd, h4 v d hv hd]
  unfold ensure_defaults
  rw [e1, e2, e3, e4]

/-- Claim C9: the parameter resolver `ensure_defaults` is idempotent — applying
the default-filling pass twice returns exactly the dictionary of one
application, for any partial parameter mapping including the empty one. -/
theorem claim_C9 (x : Inputs) :
    ensure_defaults (ensure_defaults x) = ensure_defaults x :=
  ensure_defaults_of_applied (ensure_defaults_applied x)

end ClaimC9

section ClaimC10

/-- The optional numeric fields of `compute_outputs` that are read with a
category default (`inputs.get(k, d)`) and then coerced with `float`. -/
def optionalNumericFields : List String :=
  ["satilabilir_katsayi", "otopark_katsayi", "insaat_maliyet_usd_m2", "ortalama_konut_m2"]

/-- Claim C10: when the mandatory-field check passes but an optional numeric
field is present with a null value, `compute_outputs` neither substitutes
the category default (defaulting happens only for absent keys) nor raises
the field-naming MissingField error: the call aborts with an error that
is not a MissingField for any field, and produces no outputs. -/
theorem claim_C10 (p : Inputs) (rate : Option ℚ) (k : String)
    (hreq : firstMissing p = none)
    (hk : k ∈ optionalNumericFields)
    (hnull : dictGet p k = some .null) :
    ∃ e, compute_outputs p rate = .error e ∧ ∀ f, e ≠ .missingField f := by
  have hnotok : ∀ r, resolveInputs p ≠ .ok r := by
    intro r hok
    obtain ⟨r0, s, hr0, -, -⟩ := resolveInputs_ok_elim hok
    obtain ⟨-, -, -, h3, ⟨vt, d, -, -, h4⟩, ⟨vk, kd, -, -, h5⟩, -, h7, -⟩ :=
      resolveCost_ok_elim hr0
    simp only [optionalNumericFields, List.mem_cons, List.not_mem_nil, or_false] at hk
    rcases hk with rfl | rfl | rfl | rfl
    · simp [getOptNum, hnull, pyFloat] at h3
    · simp [getOptNum, hnull, pyFloat] at h4
    · simp [getOptNum, hnull, pyFloat] at h5
    · simp [getOptNum, hnull, pyFloat] at h7
  cases he : resolveInputs p with
  | ok r => exact absurd he (hnotok r)
  | error e =>
      refine ⟨e, compute_outputs_error_iff.mpr he, fun f hf => ?_⟩
      rw [hf] at he
      exact resolveInputs_noMF hreq f he

/-- The worked example with the sellable-area coefficient present but
null. -/
def exNull : Inputs := ("satilabilir_katsayi", Value.null) :: exInputs

/-- Witness for C10 at the concrete null-valued input. -/
theorem claim_C10_witness :
    ∃ e, compute_outputs exNull none = .error e ∧ ∀ f, e ≠ .missingField f :=
  claim_C10 exNull none "satilabilir_katsayi" (by decide) (by decide) (by decide)

end ClaimC10
